import Mathlib

/-!
Shallow embedding of the QA orchestration pipeline (`QAService`) of the
LearnDer backend, together with proofs checking the natural-language
specification against it.

The embedding models:
* the pure helpers `calculateConfidence`, `buildContext`, the session-title
  computation of `createChatSession`, and the source formatting of
  `processQuestion`;
* the orchestration `processQuestion` itself, as a function of an
  environment `Env` carrying the outcomes of the external collaborators
  (retrieval, record store inserts, completion service), returning the
  result together with the ordered trace of external effects and the list
  of messages actually persisted;
* the read path `getChatHistory` / `getUserChatSessions`, with the record
  store's filter-and-order query semantics made explicit.

Machine numbers are modelled as `ℚ`; JavaScript truthiness on numbers
(`x || 0.8`) and strings (`sessionId || create(...)`) is modelled
explicitly, since `0` and `""` are falsy.
-/

/-- A retrieved passage (a row returned by `searchSimilarContent`):
content, page number, optional section (from `metadata?.section`), and an
optional similarity score. -/
structure Chunk where
  content : String
  page_number : Nat
  «section» : Option String
  similarity : Option ℚ
deriving DecidableEq

/-- The request record `QARequest` of the source. -/
structure QARequest where
  question : String
  bookId : String
  sessionId : Option String
  userId : String
deriving DecidableEq

/-- One entry of the response's `sources` array. -/
structure QASource where
  content : String
  pageNumber : Nat
  «section» : Option String
  confidence : ℚ
deriving DecidableEq

/-- The response record `QAResponse` of the source. -/
structure QAResponse where
  answer : String
  sources : List QASource
  sessionId : String
deriving DecidableEq

/-- Models the JavaScript expression `chunk.similarity || 0.8`: an absent
similarity yields `0.8`, and so does a present similarity of exactly `0`,
because `0` is falsy. -/
def simOrDefault (s : Option ℚ) : ℚ :=
  match s with
  | none => 0.8
  | some v => if v = 0 then 0.8 else v

/-- Models `Math.round(x * 100) / 100` (round to 2 decimal places;
`Math.round` is floor of `x + 1/2`). -/
def round2 (q : ℚ) : ℚ :=
  ((⌊q * 100 + 1 / 2⌋ : ℤ) : ℚ) / 100

/-- Embeds `QAService.calculateConfidence`: 0 on an empty chunk list, otherwise the
mean of `chunk.similarity || 0.8` over the chunks, rounded to 2 decimals. -/
def calculateConfidence (chunks : List Chunk) : ℚ :=
  if chunks.length = 0 then 0
  else
    round2 ((chunks.foldl (fun sum c => sum + simOrDefault c.similarity) 0) /
      (chunks.length : ℚ))

/-- Embeds `QAService.buildContext`: the sentinel on an empty list, otherwise the
labeled blocks joined by the separator, exactly as in the source template
literal. -/
def buildContext (chunks : List Chunk) : String :=
  if chunks.length = 0 then "ไม่พบเนื้อหาที่เกี่ยวข้องในหนังสือ"
  else
    String.intercalate "\n\n---\n\n"
      (chunks.enum.map (fun p =>
        "[ส่วนที่ " ++ toString (p.1 + 1) ++ " - หน้า " ++
          toString p.2.page_number ++ "]\n" ++ p.2.content))

/-- The session title computed by `QAService.createChatSession` from the
first question. -/
def sessionTitle (firstQuestion : String) : String :=
  if firstQuestion.length > 50 then firstQuestion.take 50 ++ "..."
  else firstQuestion

/-- The fixed localized error message thrown by `processQuestion`'s catch
block. -/
def processingErrorMsg : String :=
  "ขออภัยครับ/ค่ะ เกิดข้อผิดพลาดในการประมวลผลคำถาม กรุณาลองใหม่อีกครั้งนะครับ"

/-- Step 6 of `processQuestion`: formatting of the response's `sources`. -/
def formatSources (chunks : List Chunk) : List QASource :=
  chunks.map (fun c =>
    { content := c.content.take 200 ++ "..."
      pageNumber := c.page_number
      «section» := c.«section»
      confidence := simOrDefault c.similarity })

/-- Message role. -/
inductive Role where
  | user
  | assistant
deriving DecidableEq

/-- The metadata blob attached to the persisted assistant message:
`{ sources: chunks.map(c => c.content), confidence: calculateConfidence(chunks) }`. -/
structure MessageMeta where
  sources : List String
  confidence : ℚ
deriving DecidableEq

/-- The metadata `processQuestion` passes to `saveChatMessage` for the
assistant message. -/
def msgMeta (chunks : List Chunk) : MessageMeta :=
  { sources := chunks.map (fun c => c.content)
    confidence := calculateConfidence chunks }

/-- External effects issued by `processQuestion`, in order. -/
inductive Effect where
  | search
  | createSession (title : String)
  | generate (context : String)
  | save (sessionId : String) (role : Role) (content : String)
      (metadata : Option MessageMeta)
deriving DecidableEq

/-- A chat message row as persisted by `saveChatMessage`. -/
structure ChatMsg where
  session_id : String
  role : Role
  content : String
  metadata : Option MessageMeta
deriving DecidableEq

/-- Outcomes of the external collaborators for one `processQuestion` call:
the retrieval result, the id generated by the session-insert, the
completion-service result, and the record store's verdicts on the two
message inserts. -/
structure Env where
  searchResult : Except String (List Chunk)
  insertedSessionId : Except String String
  generateResult : Except String String
  saveUserResult : Except String Unit
  saveAssistantResult : Except String Unit

/-- Embeds `QAService.createChatSession`: on a store error it throws
`Failed to create chat session: ...`, otherwise it returns the generated
id. -/
def createChatSession (env : Env) : Except String String :=
  match env.insertedSessionId with
  | .ok i => .ok i
  | .error m => .error ("Failed to create chat session: " ++ m)

/-- Whether step 2 of `processQuestion` calls `createChatSession`: the
source evaluates `request.sessionId || await createChatSession(...)`, and
both an absent and an empty `sessionId` are falsy. -/
def sessionNeedsCreation (req : QARequest) : Bool :=
  match req.sessionId with
  | some s => s = ""
  | none => true

/-- Step 2 of `processQuestion`: the resolved session id. -/
def resolveSession (env : Env) (req : QARequest) : Except String String :=
  match req.sessionId with
  | some s => if s = "" then createChatSession env else .ok s
  | none => createChatSession env

/-- The body of `processQuestion`'s `try` block: retrieval, session
resolution, context building, generation, the two `saveChatMessage` calls
(whose store errors are only logged), and response formatting. Returns the
raw result, the effect trace, and the persisted messages. -/
def processQuestionRaw (env : Env) (req : QARequest) :
    Except String QAResponse × List Effect × List ChatMsg :=
  match env.searchResult with
  | .error e => (.error e, [Effect.search], [])
  | .ok chunks =>
    let effs :=
      if sessionNeedsCreation req then
        [Effect.search, Effect.createSession (sessionTitle req.question)]
      else [Effect.search]
    match resolveSession env req with
    | .error e => (.error e, effs, [])
    | .ok sid =>
      let context := buildContext chunks
      match env.generateResult with
      | .error e => (.error e, effs ++ [Effect.generate context], [])
      | .ok answer =>
        let meta := msgMeta chunks
        let effs2 := effs ++
          [Effect.generate context,
           Effect.save sid Role.user req.question none,
           Effect.save sid Role.assistant answer (some meta)]
        let persisted :=
          (match env.saveUserResult with
            | .ok _ => [ChatMsg.mk sid Role.user req.question none]
            | .error _ => []) ++
          (match env.saveAssistantResult with
            | .ok _ => [ChatMsg.mk sid Role.assistant answer (some meta)]
            | .error _ => [])
        (.ok { answer := answer, sources := formatSources chunks,
               sessionId := sid },
         effs2, persisted)

/-- Embeds `QAService.processQuestion`: the `try` body wrapped in the catch block
that replaces any thrown error by the fixed localized message. -/
def processQuestion (env : Env) (req : QARequest) :
    Except String QAResponse × List Effect × List ChatMsg :=
  match processQuestionRaw env req with
  | (.error _, effs, msgs) => (.error processingErrorMsg, effs, msgs)
  | r => r

/-- A chat-message row in the record store (`chat_messages`). -/
structure MsgRow where
  session_id : String
  role : Role
  content : String
  created_at : Nat
deriving DecidableEq

/-- A chat-session row in the record store (`chat_sessions`). -/
structure SessRow where
  user_id : String
  book_id : String
  title : String
  updated_at : Nat
deriving DecidableEq

/-- The record store visible to the read path: its rows, and whether each
read query errors. -/
structure Store where
  messages : List MsgRow
  sessions : List SessRow
  msgError : Option String
  sessError : Option String

/-- Embeds `QAService.getChatHistory`: on a store error, log and return `[]`;
otherwise the store evaluates the query (filter by `session_id`, order by
`created_at` ascending). -/
def getChatHistory (st : Store) (sessionId : String) : List MsgRow :=
  match st.msgError with
  | some _ => []
  | none =>
    (st.messages.filter (fun m => m.session_id == sessionId)).mergeSort
      (fun a b => decide (a.created_at ≤ b.created_at))

/-- Embeds `QAService.getUserChatSessions`: on a store error, log and return `[]`;
otherwise the store evaluates the query (filter by `user_id` and `book_id`,
order by `updated_at` descending). -/
def getUserChatSessions (st : Store) (userId bookId : String) :
    List SessRow :=
  match st.sessError with
  | some _ => []
  | none =>
    (((st.sessions.filter (fun s => s.user_id == userId)).filter
        (fun s => s.book_id == bookId))).mergeSort
      (fun a b => decide (b.updated_at ≤ a.updated_at))

/-- Rendering of the confidence operation as claimed by the specification:
the mean of the similarity scores where only a passage with a MISSING score
contributes `0.8` (a present score contributes its own value, including
`0`). To be compared with `calculateConfidence`. -/
def confidenceSpecMissingOnly (chunks : List Chunk) : ℚ :=
  if chunks.length = 0 then 0
  else
    round2 (((chunks.map (fun c => c.similarity.getD 0.8)).sum) /
      (chunks.length : ℚ))

/-- Rendering of the confidence operation with the amended default rule:
a passage whose score is missing OR exactly `0` contributes `0.8`. To be
compared with `calculateConfidence`. -/
def confidenceSpecAmended (chunks : List Chunk) : ℚ :=
  if chunks.length = 0 then 0
  else
    round2 (((chunks.map (fun c => simOrDefault c.similarity)).sum) /
      (chunks.length : ℚ))

/-- The "no relevant content found" sentinel named by the specification. -/
def noContentMsg : String := "ไม่พบเนื้อหาที่เกี่ยวข้องในหนังสือ"

/-- The block separator named by the specification. -/
def ctxSep : String := "\n\n---\n\n"

/-- The labeled block for one passage as described by the specification: a
header carrying the (1-based) sequence index and the page number, then the
passage content. -/
def chunkBlock (n : Nat) (c : Chunk) : String :=
  "[ส่วนที่ " ++ toString n ++ " - หน้า " ++ toString c.page_number ++
    "]\n" ++ c.content

/-- The blocks of a passage list as described by the specification, numbered
consecutively starting at `n`. -/
def labeledBlocksFrom (n : Nat) : List Chunk → List String
  | [] => []
  | c :: cs => chunkBlock n c :: labeledBlocksFrom (n + 1) cs

/-- Whether an effect is a `saveChatMessage` insert. -/
def isSave : Effect → Bool
  | .save _ _ _ _ => true
  | _ => false

/-- Folding addition over a list equals the initial value plus the sum of
the mapped list. -/
theorem foldl_add_eq_sum (f : Chunk → ℚ) :
    ∀ (l : List Chunk) (a : ℚ),
      l.foldl (fun sum c => sum + f c) a = a + (l.map f).sum := by
  intro l
  induction l with
  | nil => intro a; simp
  | cons c cs ih => intro a; simp [List.foldl_cons, ih, add_assoc]

/-- The length of `String.take`. -/
theorem string_take_length (s : String) (n : Nat) :
    (s.take n).length = min n s.length := by
  have h : (s.take n).data = List.take n s.data := String.data_take s n
  have h2 : (s.take n).length = (s.take n).data.length := rfl
  rw [h2, h, List.length_take]
  rfl

/-- The map in `buildContext` over an enumeration starting at `n` is the
specification's block list numbered from `n + 1`. -/
theorem enumFrom_map_blocks :
    ∀ (cs : List Chunk) (n : Nat),
      (List.enumFrom n cs).map (fun p =>
          "[ส่วนที่ " ++ toString (p.1 + 1) ++ " - หน้า " ++
            toString p.2.page_number ++ "]\n" ++ p.2.content) =
        labeledBlocksFrom (n + 1) cs := by
  intro cs
  induction cs with
  | nil => intro n; simp [labeledBlocksFrom]
  | cons c cs ih =>
    intro n
    simp [List.enumFrom_cons, labeledBlocksFrom, chunkBlock, ih]

/-- Replacing a list element by one with the same image under `f` preserves
the sum of the mapped list. -/
theorem sum_map_set_eq (f : Chunk → ℚ) :
    ∀ (l : List Chunk) (i : Nat) (c c' : Chunk),
      l[i]? = some c → f c = f c' →
      ((l.set i c').map f).sum = (l.map f).sum := by
  intro l
  induction l with
  | nil => intro i c c' h _; simp at h
  | cons x xs ih =>
    intro i c c' h hf
    cases i with
    | zero =>
      simp at h
      subst h
      simp [List.set, hf]
    | succ j =>
      simp at h
      have hset : (x :: xs).set (j + 1) c' = x :: xs.set j c' := rfl
      rw [hset]
      simp only [List.map_cons, List.sum_cons]
      rw [ih j c c' h hf]

/-- Explicit value of `processQuestion` when retrieval, session resolution
and generation all succeed. -/
theorem processQuestion_success (env : Env) (req : QARequest)
    (chunks : List Chunk) (sid ans : String)
    (hs : env.searchResult = .ok chunks)
    (hr : resolveSession env req = .ok sid)
    (hg : env.generateResult = .ok ans) :
    processQuestion env req =
      (.ok { answer := ans, sources := formatSources chunks,
             sessionId := sid },
       (if sessionNeedsCreation req then
          [Effect.search, Effect.createSession (sessionTitle req.question)]
        else [Effect.search]) ++
         [Effect.generate (buildContext chunks),
          Effect.save sid Role.user req.question none,
          Effect.save sid Role.assistant ans (some (msgMeta chunks))],
       (match env.saveUserResult with
         | .ok _ => [ChatMsg.mk sid Role.user req.question none]
         | .error _ => []) ++
       (match env.saveAssistantResult with
         | .ok _ => [ChatMsg.mk sid Role.assistant ans (some (msgMeta chunks))]
         | .error _ => [])) := by
  simp only [processQuestion, processQuestionRaw, hs, hr, hg]

/-- A successful `processQuestion` result can only arise from successful
retrieval, session resolution and generation, and has the stated shape. -/
theorem processQuestion_fst_ok (env : Env) (req : QARequest) (r : QAResponse)
    (h : (processQuestion env req).1 = .ok r) :
    ∃ chunks sid ans, env.searchResult = .ok chunks ∧
      resolveSession env req = .ok sid ∧
      env.generateResult = .ok ans ∧
      r = { answer := ans, sources := formatSources chunks,
            sessionId := sid } := by
  unfold processQuestion processQuestionRaw at h
  cases hs : env.searchResult with
  | error e => rw [hs] at h; simp at h
  | ok chunks =>
    rw [hs] at h
    cases hr : resolveSession env req with
    | error e => rw [hr] at h; simp at h
    | ok sid =>
      rw [hr] at h
      cases hg : env.generateResult with
      | error e => rw [hg] at h; simp at h
      | ok ans =>
        rw [hg] at h
        simp at h
        exact ⟨chunks, sid, ans, rfl, rfl, rfl, h.symm⟩

/-- C1 (counterexample): the claim computes the mean of the similarity
scores with only a MISSING score defaulted to 0.8, but on a single passage
whose similarity is present and equal to 0 the code returns 0.8 while the
claimed rule yields 0. -/
theorem calculateConfidence_zero_sim_counterexample :
    calculateConfidence [Chunk.mk "z" 1 none (some 0)] = 0.8 ∧
    confidenceSpecMissingOnly [Chunk.mk "z" 1 none (some 0)] = 0 ∧
    (0.8 : ℚ) ≠ 0 := by
  refine ⟨?_, ?_, by norm_num⟩
  · norm_num [calculateConfidence, simOrDefault, round2]
  · norm_num [confidenceSpecMissingOnly, round2]

/-- C1 (amended): the confidence operation returns 0 on the empty list and
otherwise the mean of the similarity scores rounded to 2 decimals, where a
passage whose score is missing OR exactly 0 contributes 0.8; the claim's
three examples hold. -/
theorem calculateConfidence_amended_spec :
    (∀ chunks, calculateConfidence chunks = confidenceSpecAmended chunks) ∧
    calculateConfidence [] = 0 ∧
    calculateConfidence
      [Chunk.mk "a" 1 none (some 0.4), Chunk.mk "b" 2 none (some 0.8)] =
      0.6 ∧
    calculateConfidence [Chunk.mk "c" 3 none none] = 0.8 := by
  refine ⟨?_, by simp [calculateConfidence], ?_, ?_⟩
  · intro chunks
    unfold calculateConfidence confidenceSpecAmended
    rw [foldl_add_eq_sum, zero_add]
  · norm_num [calculateConfidence, simOrDefault, round2]
  · norm_num [calculateConfidence, simOrDefault, round2]

/-- C2: `buildContext` returns the fixed sentinel on the empty list, and on
a non-empty list renders one labeled block per passage in input order —
each headed by its 1-based index and page number, followed by the content —
joined by the separator, which is a run of three repeated symbol characters
set off by blank lines. -/
theorem buildContext_spec :
    buildContext [] = noContentMsg ∧
    (∀ cs : List Chunk, cs ≠ [] →
      buildContext cs = String.intercalate ctxSep (labeledBlocksFrom 1 cs)) ∧
    (∃ (n : Nat) (ch : Char), 3 ≤ n ∧
      ctxSep = "\n\n" ++ String.mk (List.replicate n ch) ++ "\n\n") := by
  refine ⟨rfl, ?_, ⟨3, '-', by norm_num, rfl⟩⟩
  intro cs hcs
  match cs with
  | c :: cs' =>
    unfold buildContext
    rw [if_neg (by simp)]
    rw [show (c :: cs').enum = List.enumFrom 0 (c :: cs') from rfl]
    rw [enumFrom_map_blocks]
    rfl

/-- C2 (witness): a concrete one-passage list rendered as one block. -/
theorem buildContext_spec_witness :
    buildContext [Chunk.mk "x" 3 none none] =
      String.intercalate ctxSep (labeledBlocksFrom 1 [Chunk.mk "x" 3 none none]) :=
  buildContext_spec.2.1 [Chunk.mk "x" 3 none none] (by decide)

/-- C3: any retrieval or generation failure makes `processQuestion` fail
with the one fixed localized message, independent of the failing step and
of the upstream error text (which is only logged). -/
theorem processQuestion_error_collapse :
    (∀ (env : Env) (req : QARequest) (e : String),
        env.searchResult = .error e ∨ env.generateResult = .error e →
        (processQuestion env req).1 = .error processingErrorMsg) ∧
    processingErrorMsg =
      "ขออภัยครับ/ค่ะ เกิดข้อผิดพลาดในการประมวลผลคำถาม กรุณาลองใหม่อีกครั้งนะครับ" := by
  refine ⟨?_, rfl⟩
  intro env req e h
  unfold processQuestion processQuestionRaw
  rcases h with h | h
  · rw [h]
  · cases hs : env.searchResult with
    | error e' => rfl
    | ok chunks =>
      cases hr : resolveSession env req with
      | error e' => rfl
      | ok sid => rw [h]

/-- C3 (witness): a concrete retrieval failure yields the fixed message. -/
theorem processQuestion_error_collapse_witness :
    (processQuestion ⟨.error "boom", .ok "s1", .ok "ans", .ok (), .ok ()⟩
        ⟨"q", "b", none, "u"⟩).1 = .error processingErrorMsg :=
  processQuestion_error_collapse.1 _ _ "boom" (Or.inl rfl)

/-- C4: when retrieval, session resolution and generation succeed but the
record store rejects a message insert, `processQuestion` still succeeds
with the generated answer and the resolved session id. -/
theorem processQuestion_save_failure_soft :
    ∀ (env : Env) (req : QARequest) (chunks : List Chunk) (sid ans : String),
      env.searchResult = .ok chunks →
      resolveSession env req = .ok sid →
      env.generateResult = .ok ans →
      (∃ e, env.saveUserResult = .error e ∨
        env.saveAssistantResult = .error e) →
      (processQuestion env req).1 =
        .ok { answer := ans, sources := formatSources chunks,
              sessionId := sid } := by
  intro env req chunks sid ans hs hr hg _
  rw [processQuestion_success env req chunks sid ans hs hr hg]

/-- C4 (witness): a concrete run whose message inserts are both rejected
still resolves with the answer and session id. -/
theorem processQuestion_save_failure_soft_witness :
    (processQuestion
        ⟨.ok [], .ok "sX", .ok "ans", .error "insert rejected", .ok ()⟩
        ⟨"q", "b", none, "u"⟩).1 =
      .ok { answer := "ans", sources := [], sessionId := "sX" } :=
  processQuestion_save_failure_soft _ _ [] "sX" "ans" rfl rfl rfl
    ⟨"insert rejected", Or.inl rfl⟩

/-- Explicit value of `processQuestion` when retrieval fails. -/
theorem processQuestion_search_error (env : Env) (req : QARequest)
    (e : String) (h : env.searchResult = .error e) :
    processQuestion env req =
      (.error processingErrorMsg, [Effect.search], []) := by
  unfold processQuestion processQuestionRaw
  rw [h]

/-- Explicit value of `processQuestion` when session resolution fails. -/
theorem processQuestion_resolve_error (env : Env) (req : QARequest)
    (chunks : List Chunk) (e : String)
    (hs : env.searchResult = .ok chunks)
    (hr : resolveSession env req = .error e) :
    processQuestion env req =
      (.error processingErrorMsg,
       (if sessionNeedsCreation req then
          [Effect.search, Effect.createSession (sessionTitle req.question)]
        else [Effect.search]), []) := by
  unfold processQuestion processQuestionRaw
  rw [hs, hr]

/-- Explicit value of `processQuestion` when generation fails. -/
theorem processQuestion_generate_error (env : Env) (req : QARequest)
    (chunks : List Chunk) (sid e : String)
    (hs : env.searchResult = .ok chunks)
    (hr : resolveSession env req = .ok sid)
    (hg : env.generateResult = .error e) :
    processQuestion env req =
      (.error processingErrorMsg,
       (if sessionNeedsCreation req then
          [Effect.search, Effect.createSession (sessionTitle req.question)]
        else [Effect.search]) ++ [Effect.generate (buildContext chunks)],
       []) := by
  unfold processQuestion processQuestionRaw
  rw [hs, hr, hg]

/-- C5 (counterexample): a request whose `sessionId` IS present but empty
is not reused verbatim — the code creates a new session (the empty string
is falsy in `request.sessionId || createChatSession(...)`) and returns the
new id. -/
theorem processQuestion_empty_sessionId_creates :
    (processQuestion ⟨.ok [], .ok "newid", .ok "ans", .ok (), .ok ()⟩
        ⟨"q", "b", some "", "u"⟩).1 =
      .ok { answer := "ans", sources := [], sessionId := "newid" } ∧
    Effect.createSession (sessionTitle "q") ∈
      (processQuestion ⟨.ok [], .ok "newid", .ok "ans", .ok (), .ok ()⟩
        ⟨"q", "b", some "", "u"⟩).2.1 ∧
    ("newid" : String) ≠ "" := by
  refine ⟨rfl, ?_, by decide⟩
  have h : (processQuestion ⟨.ok [], .ok "newid", .ok "ans", .ok (), .ok ()⟩
      ⟨"q", "b", some "", "u"⟩).2.1 =
      [Effect.search, Effect.createSession (sessionTitle "q"),
       Effect.generate (buildContext []),
       Effect.save "newid" Role.user "q" none,
       Effect.save "newid" Role.assistant "ans" (some (msgMeta []))] := rfl
  rw [h]
  simp

/-- C5 (amended): a present and NON-EMPTY `request.sessionId` is reused
verbatim with no session creation; an absent or empty one leads to a new
session whose generated id becomes the result's `sessionId`. -/
theorem processQuestion_session_resolution :
    ∀ (env : Env) (req : QARequest),
      (∀ s, req.sessionId = some s → s ≠ "" →
        (∀ t, Effect.createSession t ∉ (processQuestion env req).2.1) ∧
        ∀ r, (processQuestion env req).1 = .ok r → r.sessionId = s) ∧
      ((req.sessionId = none ∨ req.sessionId = some "") →
        ∀ chunks nid ans, env.searchResult = .ok chunks →
          env.insertedSessionId = .ok nid → env.generateResult = .ok ans →
          Effect.createSession (sessionTitle req.question) ∈
            (processQuestion env req).2.1 ∧
          ∀ r, (processQuestion env req).1 = .ok r → r.sessionId = nid) := by
  intro env req
  constructor
  · intro s hsid hne
    have hcreate : sessionNeedsCreation req = false := by
      simp [sessionNeedsCreation, hsid, hne]
    have hres : resolveSession env req = .ok s := by
      simp [resolveSession, hsid, hne]
    constructor
    · intro t
      cases hs : env.searchResult with
      | error e => rw [processQuestion_search_error env req e hs]; simp
      | ok chunks =>
        cases hg : env.generateResult with
        | error e =>
          rw [processQuestion_generate_error env req chunks s e hs hres hg]
          simp [hcreate]
        | ok ans =>
          rw [processQuestion_success env req chunks s ans hs hres hg]
          simp [hcreate]
    · intro r h
      obtain ⟨chunks, sid, ans, _, hr', _, hry⟩ :=
        processQuestion_fst_ok env req r h
      rw [hres] at hr'
      cases hr'
      rw [hry]
  · intro hsid chunks nid ans hs hins hg
    have hcreate : sessionNeedsCreation req = true := by
      rcases hsid with h | h <;> simp [sessionNeedsCreation, h]
    have hres : resolveSession env req = .ok nid := by
      rcases hsid with h | h <;>
        simp [resolveSession, h, createChatSession, hins]
    constructor
    · rw [processQuestion_success env req chunks nid ans hs hres hg]
      simp [hcreate]
    · intro r h
      obtain ⟨chunks', sid', ans', _, hr', _, hry⟩ :=
        processQuestion_fst_ok env req r h
      rw [hres] at hr'
      cases hr'
      rw [hry]

/-- C5 (witness): with a non-empty supplied session id, no session is
created and the id is echoed back; with no session id, the generated id is
returned. -/
theorem processQuestion_session_resolution_witness :
    ((∀ t, Effect.createSession t ∉
        (processQuestion ⟨.ok [], .ok "n", .ok "a", .ok (), .ok ()⟩
          ⟨"q", "b", some "keep", "u"⟩).2.1) ∧
      ∀ r, (processQuestion ⟨.ok [], .ok "n", .ok "a", .ok (), .ok ()⟩
          ⟨"q", "b", some "keep", "u"⟩).1 = .ok r → r.sessionId = "keep") :=
  (processQuestion_session_resolution
    ⟨.ok [], .ok "n", .ok "a", .ok (), .ok ()⟩
    ⟨"q", "b", some "keep", "u"⟩).1 "keep" rfl (by decide)

/-- C6 (counterexample): a successful call during which the store rejects
the user-message insert but accepts the assistant-message insert appends
only ONE message — the assistant reply without its preceding user question
— refuting "exactly two messages are appended" for every successful call. -/
theorem processQuestion_incomplete_persist_counterexample :
    (processQuestion ⟨.ok [], .ok "ig", .ok "ans", .error "db down", .ok ()⟩
        ⟨"q", "b", some "s", "u"⟩).1 =
      .ok { answer := "ans", sources := [], sessionId := "s" } ∧
    (processQuestion ⟨.ok [], .ok "ig", .ok "ans", .error "db down", .ok ()⟩
        ⟨"q", "b", some "s", "u"⟩).2.2 =
      [ChatMsg.mk "s" Role.assistant "ans" (some (msgMeta []))] ∧
    (processQuestion ⟨.ok [], .ok "ig", .ok "ans", .error "db down", .ok ()⟩
        ⟨"q", "b", some "s", "u"⟩).2.2.length ≠ 2 := by
  refine ⟨rfl, rfl, ?_⟩
  have h : (processQuestion
      ⟨.ok [], .ok "ig", .ok "ans", .error "db down", .ok ()⟩
      ⟨"q", "b", some "s", "u"⟩).2.2 =
      [ChatMsg.mk "s" Role.assistant "ans" (some (msgMeta []))] := rfl
  rw [h]
  simp

/-- C6 (amended): every successful `processQuestion` call issues exactly
two message inserts — the user message (question) strictly before the
assistant message (answer) — and when the store accepts both inserts,
exactly those two messages are appended in that order; a rejected insert is
skipped (only logged), so fewer messages may be appended. -/
theorem processQuestion_message_write_order :
    ∀ (env : Env) (req : QARequest) (r : QAResponse),
      (processQuestion env req).1 = .ok r →
      ∃ m : MessageMeta,
        ((processQuestion env req).2.1.filter isSave) =
          [Effect.save r.sessionId Role.user req.question none,
           Effect.save r.sessionId Role.assistant r.answer (some m)] ∧
        (env.saveUserResult = .ok () ∧ env.saveAssistantResult = .ok () →
          (processQuestion env req).2.2 =
            [ChatMsg.mk r.sessionId Role.user req.question none,
             ChatMsg.mk r.sessionId Role.assistant r.answer (some m)]) := by
  intro env req r h
  obtain ⟨chunks, sid, ans, hs, hr, hg, hry⟩ :=
    processQuestion_fst_ok env req r h
  subst hry
  refine ⟨msgMeta chunks, ?_, ?_⟩
  · rw [processQuestion_success env req chunks sid ans hs hr hg]
    cases hb : sessionNeedsCreation req <;> simp [hb, isSave]
  · intro ⟨hu, ha⟩
    rw [processQuestion_success env req chunks sid ans hs hr hg]
    simp [hu, ha]

/-- C6 (witness): a concrete successful call whose two inserts are both
accepted: the save trace and the persisted history are the user message
then the assistant message. -/
theorem processQuestion_message_write_order_witness :
    ∃ m : MessageMeta,
      ((processQuestion ⟨.ok [], .ok "n", .ok "ans", .ok (), .ok ()⟩
          ⟨"q", "b", some "s", "u"⟩).2.1.filter isSave) =
        [Effect.save "s" Role.user "q" none,
         Effect.save "s" Role.assistant "ans" (some m)] ∧
      ((⟨.ok [], .ok "n", .ok "ans", .ok (), .ok ()⟩ : Env).saveUserResult
          = .ok () ∧
        (⟨.ok [], .ok "n", .ok "ans", .ok (), .ok ()⟩ : Env).saveAssistantResult
          = .ok () →
        (processQuestion ⟨.ok [], .ok "n", .ok "ans", .ok (), .ok ()⟩
            ⟨"q", "b", some "s", "u"⟩).2.2 =
          [ChatMsg.mk "s" Role.user "q" none,
           ChatMsg.mk "s" Role.assistant "ans" (some m)]) :=
  processQuestion_message_write_order
    ⟨.ok [], .ok "n", .ok "ans", .ok (), .ok ()⟩
    ⟨"q", "b", some "s", "u"⟩
    { answer := "ans", sources := [], sessionId := "s" } rfl

/-- C7: on every successful call, the i-th returned source's content is the
i-th retrieved passage's content truncated to 200 characters with an
ellipsis appended (whatever the passage's length), while the assistant
message persisted for the call carries the full untruncated contents in
its metadata's `sources`. -/
theorem processQuestion_sources_truncated :
    ∀ (env : Env) (req : QARequest) (chunks : List Chunk) (r : QAResponse),
      env.searchResult = .ok chunks →
      (processQuestion env req).1 = .ok r →
      (∀ i : Nat, (r.sources[i]?).map (fun s => s.content) =
        (chunks[i]?).map (fun c => c.content.take 200 ++ "...")) ∧
      ∃ conf : ℚ,
        Effect.save r.sessionId Role.assistant r.answer
            (some ⟨chunks.map (fun c => c.content), conf⟩) ∈
          (processQuestion env req).2.1 := by
  intro env req chunks r hs h
  obtain ⟨chunks', sid, ans, hs', hr, hg, hry⟩ :=
    processQuestion_fst_ok env req r h
  rw [hs] at hs'
  cases hs'
  subst hry
  constructor
  · intro i
    cases hci : chunks[i]? <;>
      simp [formatSources, List.getElem?_map, hci]
  · refine ⟨calculateConfidence chunks, ?_⟩
    rw [processQuestion_success env req chunks sid ans hs hr hg]
    simp [msgMeta]

/-- C7 (witness): a concrete run with one short passage: the returned
source content still carries the ellipsis, and the full content is in the
assistant message's metadata. -/
theorem processQuestion_sources_truncated_witness :
    (∀ i : Nat,
      ((formatSources [Chunk.mk "hello" 2 none none])[i]?).map
          (fun s => s.content) =
        (([Chunk.mk "hello" 2 none none] : List Chunk)[i]?).map
          (fun c => c.content.take 200 ++ "...")) ∧
    ∃ conf : ℚ,
      Effect.save "s" Role.assistant "ans" (some ⟨["hello"], conf⟩) ∈
        (processQuestion
          ⟨.ok [Chunk.mk "hello" 2 none none], .ok "n", .ok "ans",
           .ok (), .ok ()⟩
          ⟨"q", "b", some "s", "u"⟩).2.1 :=
  processQuestion_sources_truncated
    ⟨.ok [Chunk.mk "hello" 2 none none], .ok "n", .ok "ans", .ok (), .ok ()⟩
    ⟨"q", "b", some "s", "u"⟩
    [Chunk.mk "hello" 2 none none]
    { answer := "ans",
      sources := formatSources [Chunk.mk "hello" 2 none none],
      sessionId := "s" } rfl rfl

/-- C8: the lazily created session's title is the first question unchanged
when it has at most 50 characters, and otherwise its first 50 characters
(exactly 50) with an ellipsis appended. -/
theorem sessionTitle_spec :
    ∀ q : String,
      (q.length ≤ 50 → sessionTitle q = q) ∧
      (50 < q.length →
        sessionTitle q = q.take 50 ++ "..." ∧ (q.take 50).length = 50) := by
  intro q
  constructor
  · intro h
    unfold sessionTitle
    rw [if_neg (by omega)]
  · intro h
    refine ⟨?_, ?_⟩
    · unfold sessionTitle
      rw [if_pos (by omega)]
    · rw [string_take_length]
      omega

/-- C8 (witness): a 51-character question is truncated to its first 50
characters plus the ellipsis. -/
theorem sessionTitle_spec_witness :
    sessionTitle (String.mk (List.replicate 51 'a')) =
      (String.mk (List.replicate 51 'a')).take 50 ++ "..." ∧
    ((String.mk (List.replicate 51 'a')).take 50).length = 50 :=
  (sessionTitle_spec (String.mk (List.replicate 51 'a'))).2 (by decide)

/-- C9: `getChatHistory` returns the session's messages oldest-first and
`getUserChatSessions` the user's sessions for the book newest-updated
first (each a permutation of the matching rows), and any store error makes
each return the empty list instead of failing. -/
theorem readPath_order_and_degrade :
    ∀ (st : Store) (sid uid bid : String),
      (st.msgError ≠ none → getChatHistory st sid = []) ∧
      (st.sessError ≠ none → getUserChatSessions st uid bid = []) ∧
      (st.msgError = none →
        (getChatHistory st sid).Pairwise
            (fun a b => a.created_at ≤ b.created_at) ∧
        (getChatHistory st sid).Perm
          (st.messages.filter (fun m => m.session_id == sid))) ∧
      (st.sessError = none →
        (getUserChatSessions st uid bid).Pairwise
            (fun a b => b.updated_at ≤ a.updated_at) ∧
        (getUserChatSessions st uid bid).Perm
          ((st.sessions.filter (fun s => s.user_id == uid)).filter
            (fun s => s.book_id == bid))) := by
  intro st sid uid bid
  refine ⟨?_, ?_, ?_, ?_⟩
  · intro h
    cases hm : st.msgError with
    | none => exact absurd hm h
    | some e => unfold getChatHistory; rw [hm]
  · intro h
    cases hm : st.sessError with
    | none => exact absurd hm h
    | some e => unfold getUserChatSessions; rw [hm]
  · intro h
    unfold getChatHistory
    rw [h]
    refine ⟨?_, List.mergeSort_perm _ _⟩
    have hp := @List.sorted_mergeSort MsgRow
      (fun a b => decide (a.created_at ≤ b.created_at))
      (fun a b c hab hbc => by
        simp only [decide_eq_true_eq] at hab hbc ⊢
        omega)
      (fun a b => by
        simp only [Bool.or_eq_true, decide_eq_true_eq]
        exact Nat.le_total _ _)
      (st.messages.filter (fun m => m.session_id == sid))
    exact hp.imp (fun hab => of_decide_eq_true hab)
  · intro h
    unfold getUserChatSessions
    rw [h]
    refine ⟨?_, List.mergeSort_perm _ _⟩
    have hp := @List.sorted_mergeSort SessRow
      (fun a b => decide (b.updated_at ≤ a.updated_at))
      (fun a b c hab hbc => by
        simp only [decide_eq_true_eq] at hab hbc ⊢
        omega)
      (fun a b => by
        simp only [Bool.or_eq_true, decide_eq_true_eq]
        exact Nat.le_total _ _)
      ((st.sessions.filter (fun s => s.user_id == uid)).filter
        (fun s => s.book_id == bid))
    exact hp.imp (fun hab => of_decide_eq_true hab)

/-- C9 (witness): on a concrete two-message, one-session store with no
errors, the read path returns the sorted history and session list. -/
theorem readPath_order_and_degrade_witness :
    ((Store.mk [MsgRow.mk "s" Role.user "a" 2, MsgRow.mk "s" Role.assistant "b" 1]
        [SessRow.mk "u" "b" "t" 5] none none).msgError = none →
      (getChatHistory
          (Store.mk [MsgRow.mk "s" Role.user "a" 2, MsgRow.mk "s" Role.assistant "b" 1]
            [SessRow.mk "u" "b" "t" 5] none none) "s").Pairwise
        (fun a b => a.created_at ≤ b.created_at) ∧
      (getChatHistory
          (Store.mk [MsgRow.mk "s" Role.user "a" 2, MsgRow.mk "s" Role.assistant "b" 1]
            [SessRow.mk "u" "b" "t" 5] none none) "s").Perm
        ((Store.mk [MsgRow.mk "s" Role.user "a" 2, MsgRow.mk "s" Role.assistant "b" 1]
            [SessRow.mk "u" "b" "t" 5] none none).messages.filter
          (fun m => m.session_id == "s"))) ∧
    (getChatHistory
        (Store.mk [MsgRow.mk "s" Role.user "a" 2, MsgRow.mk "s" Role.assistant "b" 1]
          [SessRow.mk "u" "b" "t" 5] none none) "s").Pairwise
      (fun a b => a.created_at ≤ b.created_at) :=
  ⟨(readPath_order_and_degrade
      (Store.mk [MsgRow.mk "s" Role.user "a" 2, MsgRow.mk "s" Role.assistant "b" 1]
        [SessRow.mk "u" "b" "t" 5] none none) "s" "u" "b").2.2.1,
   ((readPath_order_and_degrade
      (Store.mk [MsgRow.mk "s" Role.user "a" 2, MsgRow.mk "s" Role.assistant "b" 1]
        [SessRow.mk "u" "b" "t" 5] none none) "s" "u" "b").2.2.1 rfl).1⟩

/-- C10: a passage whose similarity is present and exactly 0 is treated by
both call sites as if the score were missing: the corresponding returned
source's confidence is 0.8, replacing the score by "missing" leaves the
computed confidence unchanged, and the confidence of a single such passage
is 0.8, not 0. -/
theorem zero_similarity_treated_as_missing :
    ∀ (chunks : List Chunk) (i : Nat) (c : Chunk),
      chunks[i]? = some c → c.similarity = some 0 →
      ((formatSources chunks)[i]?).map (fun s => s.confidence) =
        some 0.8 ∧
      calculateConfidence chunks =
        calculateConfidence (chunks.set i { c with similarity := none }) ∧
      calculateConfidence [c] = 0.8 := by
  intro chunks i c hi hc
  have hval : simOrDefault c.similarity = 0.8 := by
    rw [hc]
    simp [simOrDefault]
  refine ⟨?_, ?_, ?_⟩
  · simp [formatSources, List.getElem?_map, hi, hval]
  · by_cases hlen : chunks.length = 0
    · simp [calculateConfidence, hlen, List.length_set]
    · simp only [calculateConfidence, List.length_set, if_neg hlen]
      rw [foldl_add_eq_sum, foldl_add_eq_sum,
        sum_map_set_eq (fun c => simOrDefault c.similarity) chunks i c
          { c with similarity := none } hi (by simp [simOrDefault, hc])]
  · have h1 : calculateConfidence [c] =
        round2 ((0 + simOrDefault c.similarity) / 1) := by
      simp [calculateConfidence]
    rw [h1, hval]
    norm_num [round2]

/-- C10 (witness): a single passage with similarity exactly 0 yields
source confidence 0.8 and overall confidence 0.8. -/
theorem zero_similarity_treated_as_missing_witness :
    ((formatSources [Chunk.mk "x" 1 none (some 0)])[0]?).map
        (fun s => s.confidence) = some (0.8 : ℚ) ∧
    calculateConfidence [Chunk.mk "x" 1 none (some 0)] =
      calculateConfidence
        ([Chunk.mk "x" 1 none (some 0)].set 0 (Chunk.mk "x" 1 none none)) ∧
    calculateConfidence [Chunk.mk "x" 1 none (some 0)] = 0.8 :=
  zero_similarity_treated_as_missing [Chunk.mk "x" 1 none (some 0)] 0
    (Chunk.mk "x" 1 none (some 0)) rfl rfl
